import Mathlib

/-!
Verification of the nexo-backend-api core: friendship canonical-pair
storage and state machine (src/app/models/friendship.py,
src/app/routes/friends.py), credential lockout and login flow
(src/app/routes/auth.py, src/app/models/auth_local.py), token issuance
and validation (src/app/security.py), and the access gate decorator
(src/app/security.py: auth_required), against the configuration defaults
of src/config.py.

External collaborators (the argon2 hasher, the JWT wire codec, the user
lookup) are modelled as function parameters; everything else is a direct
transcription of the Python control flow.
-/

namespace Nexo

/-- Configuration values from src/config.py (environment defaults). -/
structure Config where
  JWT_SECRET : String
  JWT_EXPIRES_MIN : Nat
  deriving DecidableEq, Repr

/-- Default configuration when no environment variables are set
(src/config.py lines 23-24). -/
def defaultConfig : Config :=
  { JWT_SECRET := "nexo-jwt-default-secret", JWT_EXPIRES_MIN := 60 }

/-- Account record (src/app/models/user.py), restricted to the fields the
login flow and the access gate read. -/
structure User where
  uuid : String
  username : String
  email : String
  is_active : Bool
  deriving DecidableEq, Repr

/-- Local credential record (src/app/models/auth_local.py). Timestamps are
modelled as `Option Nat` (seconds); `password_hash` is the stored argon2
digest, kept abstract as a string. -/
structure AuthLocal where
  password_hash : String
  login_attempts : Nat
  last_login_attempt : Option Nat
  is_locked : Bool
  deriving DecidableEq, Repr

/-- JWT claim set built by make_access_token (src/app/security.py
lines 124-130). Times are seconds since the epoch. -/
structure TokenPayload where
  user_uuid : String
  exp : Nat
  iat : Nat
  type : String
  deriving DecidableEq, Repr

/-- A signed token as produced by jwt.encode: the claim set together with
the signing key and algorithm (src/app/security.py lines 133-137). -/
structure SignedToken where
  payload : TokenPayload
  key : String
  alg : String
  deriving DecidableEq, Repr

/-- make_access_token (src/app/security.py lines 105-139): embeds the
subject uuid, issued-at `now`, expiry `now` plus the configured TTL in
minutes, and the fixed type tag, signed HS256 with the server secret. -/
def make_access_token (cfg : Config) (now : Nat) (user_uuid : String) :
    SignedToken :=
  { payload :=
      { user_uuid := user_uuid
        exp := now + cfg.JWT_EXPIRES_MIN * 60
        iat := now
        type := "access_token" }
    key := cfg.JWT_SECRET
    alg := "HS256" }

/-- Result of the login route: a signed access token on success, an HTTP
status code and error message on failure. -/
inductive LoginResult where
  | ok (token : SignedToken)
  | err (code : Nat) (msg : String)
  deriving DecidableEq, Repr

/-- login (src/app/routes/auth.py lines 116-187), after request parsing and
the username-or-email lookup. `user?` is the looked-up account, `auth?` its
credential row, `verify` the argon2 verify_password collaborator, `now` the
clock. Returns the response together with the credential row as left in the
database. -/
def login (cfg : Config) (verify : String → String → Bool) (now : Nat)
    (user? : Option User) (auth? : Option AuthLocal) (password : String) :
    LoginResult × Option AuthLocal :=
  match user? with
  | none => (.err 401 "Credenciales inválidas", auth?)
  | some user =>
    if user.is_active = false then
      (.err 401 "Credenciales inválidas", auth?)
    else
      match auth? with
      | none => (.err 401 "Credenciales inválidas", none)
      | some auth =>
        if auth.is_locked = true then
          (.err 401 "Cuenta bloqueada. Contacte al administrador", some auth)
        else if verify password auth.password_hash = false then
          (.err 401 "Credenciales inválidas",
           some { auth with
                    login_attempts := auth.login_attempts + 1
                    last_login_attempt := some now
                    is_locked :=
                      if auth.login_attempts + 1 ≥ 5 then true
                      else auth.is_locked })
        else
          (.ok (make_access_token cfg now user.uuid),
           some { auth with
                    login_attempts := 0
                    last_login_attempt := some now })

/-- Repeated failed login attempts: apply the login route `n` times with the
same (wrong) password, threading the credential row. -/
def failN (cfg : Config) (verify : String → String → Bool) (now : Nat)
    (u : User) (password : String) : Nat → Option AuthLocal → Option AuthLocal
  | 0, a? => a?
  | n + 1, a? =>
    (login cfg verify now (some u) (failN cfg verify now u password n a?)
      password).2

/-- Friendship row (src/app/models/friendship.py): canonical unordered pair
stored as (user_low_id, user_high_id), a status string, the requester, and
timestamps (seconds). -/
structure Friendship where
  user_low_id : String
  user_high_id : String
  status : String
  requested_by_id : String
  created_at : Nat
  updated_at : Nat
  deriving DecidableEq, Repr

/-- Friendship.normalize_user_pair (src/app/models/friendship.py
lines 40-57): orders the two ids lexicographically, flagging whether they
were swapped. -/
def normalize_user_pair (user_a_id user_b_id : String) :
    String × String × Bool :=
  if user_a_id < user_b_id then (user_a_id, user_b_id, false)
  else (user_b_id, user_a_id, true)

/-- Friendship.get_other_user_id (src/app/models/friendship.py
lines 74-89); the ValueError branch becomes `none`. -/
def get_other_user_id (f : Friendship) (current_user_id : String) :
    Option String :=
  if current_user_id = f.user_low_id then some f.user_high_id
  else if current_user_id = f.user_high_id then some f.user_low_id
  else none

/-- Response of a friendship route: HTTP code, message, and the friendship
row as left in the database (`none` when no row exists). -/
structure Outcome where
  code : Nat
  message : String
  row? : Option Friendship
  deriving DecidableEq, Repr

/-- accept_friend_request (src/app/routes/friends.py lines 186-245), after
request parsing and find_friendship. `me` is the authenticated caller,
`row?` the row found for the caller-counterpart pair. -/
def accept_friend_request (now : Nat) (me : String)
    (row? : Option Friendship) : Outcome :=
  match row? with
  | none =>
    { code := 404
      message := "No existe una relación de amistad con este usuario"
      row? := none }
  | some f =>
    if f.status ≠ "pending" then
      { code := 400
        message := "La relación está en estado \x27" ++ f.status ++
          "\x27, no puede ser aceptada"
        row? := some f }
    else if f.requested_by_id = me then
      { code := 403
        message := "No puedes aceptar tu propia solicitud de amistad"
        row? := some f }
    else
      { code := 200
        message := "Solicitud de amistad aceptada exitosamente"
        row? := some { f with status := "accepted", updated_at := now } }

/-- reject_friend_request (src/app/routes/friends.py lines 247-306),
symmetric to accept. -/
def reject_friend_request (now : Nat) (me : String)
    (row? : Option Friendship) : Outcome :=
  match row? with
  | none =>
    { code := 404
      message := "No existe una relación de amistad con este usuario"
      row? := none }
  | some f =>
    if f.status ≠ "pending" then
      { code := 400
        message := "La relación está en estado \x27" ++ f.status ++
          "\x27, no puede ser rechazada"
        row? := some f }
    else if f.requested_by_id = me then
      { code := 403
        message := "No puedes rechazar tu propia solicitud de amistad"
        row? := some f }
    else
      { code := 200
        message := "Solicitud de amistad rechazada"
        row? := some { f with status := "rejected", updated_at := now } }

/-- unfriend_user (src/app/routes/friends.py lines 308-365), after request
parsing and find_friendship. -/
def unfriend_user (now : Nat) (me : String) (row? : Option Friendship) :
    Outcome :=
  match row? with
  | none =>
    { code := 404
      message := "No existe una relación de amistad con este usuario"
      row? := none }
  | some f =>
    if f.status = "accepted" then
      { code := 200
        message := "Amistad eliminada exitosamente"
        row? := some { f with status := "removed", updated_at := now } }
    else
      { code := 200
        message := "La relación ya está en estado \x27" ++ f.status ++ "\x27"
        row? := some f }

/-- Response of send_friend_request: additionally records whether a new row
was inserted into the friendships table. -/
structure SendOutcome where
  code : Nat
  message : String
  row? : Option Friendship
  insertedNew : Bool
  deriving DecidableEq, Repr

/-- send_friend_request (src/app/routes/friends.py lines 79-184), after
request parsing. `targetExists` is the target-account lookup, `row?` the
result of find_friendship for the pair. A pre-existing row in a status
outside the four modelled states would fall through to the insert and hit
the uniqueness constraint (IntegrityError, 500). -/
def send_friend_request (now : Nat) (me to_user_uuid : String)
    (targetExists : Bool) (row? : Option Friendship) : SendOutcome :=
  if to_user_uuid = "" then
    { code := 400, message := "Campo to_user_uuid es requerido"
      row? := row?, insertedNew := false }
  else if to_user_uuid = me then
    { code := 400
      message := "No puedes enviarte una solicitud de amistad a ti mismo"
      row? := row?, insertedNew := false }
  else if targetExists = false then
    { code := 404, message := "Usuario destino no encontrado"
      row? := row?, insertedNew := false }
  else
    match row? with
    | some e =>
      if e.status = "pending" ∧ e.requested_by_id = me then
        { code := 200, message := "Solicitud de amistad ya existe"
          row? := some e, insertedNew := false }
      else if e.status = "rejected" ∨ e.status = "removed" then
        { code := 200, message := "Solicitud de amistad enviada"
          row? := some { e with
                           status := "pending"
                           requested_by_id := me
                           updated_at := now }
          insertedNew := false }
      else if e.status = "accepted" then
        { code := 200, message := "Ya son amigos"
          row? := some e, insertedNew := false }
      else if e.status = "pending" ∧ e.requested_by_id ≠ me then
        { code := 200
          message := "Ya tienes una solicitud pendiente de este usuario"
          row? := some e, insertedNew := false }
      else
        { code := 500, message := "Error de integridad en la base de datos"
          row? := some e, insertedNew := false }
    | none =>
      { code := 201
        message := "Solicitud de amistad enviada exitosamente"
        row? := some
          { user_low_id := (normalize_user_pair me to_user_uuid).1
            user_high_id := (normalize_user_pair me to_user_uuid).2.1
            status := "pending"
            requested_by_id := me
            created_at := now
            updated_at := now }
        insertedNew := true }

/-- Python's token.strip() == chr(34,34) test combined with falsiness of the
empty string: true exactly when the token is empty or all whitespace. -/
def token_is_blank (token : String) : Bool :=
  token.data.all (fun c => c.isWhitespace)

/-- decode_access_token (src/app/security.py lines 144-187). The JWT wire
codec is abstracted by `parse`; a wrong key or algorithm is a signature
failure, an expiry at or before `now` is expired (PyJWT checks signature
and expiry inside jwt.decode, before the type and subject checks). -/
def decode_access_token (cfg : Config) (now : Nat)
    (parse : String → Option SignedToken) (token : String) :
    Except String TokenPayload :=
  if token_is_blank token = true then .error "Token vacío"
  else
    match parse token with
    | none => .error "Token mal formateado"
    | some st =>
      if st.key ≠ cfg.JWT_SECRET ∨ st.alg ≠ "HS256" then
        .error "Firma de token inválida"
      else if st.payload.exp ≤ now then .error "Token expirado"
      else if st.payload.type ≠ "access_token" then
        .error "Tipo de token inválido"
      else if st.payload.user_uuid = "" then .error "Token sin user_uuid"
      else .ok st.payload

/-- Split a character list at the first space, keeping everything after it
(Python split with maxsplit 1); `none` when no space occurs. -/
def splitOnceChar : List Char → Option (List Char × List Char)
  | [] => none
  | c :: cs =>
    if c = ' ' then some ([], cs)
    else
      match splitOnceChar cs with
      | none => none
      | some (l, r) => some (c :: l, r)

/-- Python's auth_header.split at the first space with maxsplit 1: a header
without any space fails to unpack (ValueError branch). -/
def splitBearer (header : String) : Option (String × String) :=
  match splitOnceChar header.data with
  | none => none
  | some (l, r) => some (String.mk l, String.mk r)

/-- Python's str.lower restricted to ASCII, which is all the Bearer-scheme
check needs. -/
def lowerAscii (s : String) : String :=
  String.mk (s.data.map Char.toLower)

/-- The token-to-principal resolution inside the auth_required decorator
(src/app/security.py lines 205-246): header extraction, Bearer-scheme
check, token decoding, and account lookup. -/
def auth_gate (cfg : Config) (now : Nat)
    (parse : String → Option SignedToken) (findUser : String → Option User)
    (header : Option String) : Except (Nat × String) User :=
  match header with
  | none => .error (401, "Token de autorización requerido")
  | some h =>
    match splitBearer h with
    | none => .error (401, "Formato de autorización inválido")
    | some (scheme, token) =>
      if lowerAscii scheme ≠ "bearer" then
        .error (401, "Formato de autorización inválido")
      else
        match decode_access_token cfg now parse token with
        | .error _ => .error (401, "Token inválido")
        | .ok payload =>
          match findUser payload.user_uuid with
          | none => .error (401, "Usuario no encontrado")
          | some u => .ok u

/-- auth_required (src/app/security.py lines 189-254): runs the gate and
invokes the wrapped handler `f` with the resolved principal only on
success. -/
def auth_required {α : Type} (cfg : Config) (now : Nat)
    (parse : String → Option SignedToken) (findUser : String → Option User)
    (header : Option String) (f : User → α) : Except (Nat × String) α :=
  match auth_gate cfg now parse findUser header with
  | .error e => .error e
  | .ok u => .ok (f u)

/-- C1: the spec requires the login failures for no-such-user, wrong
password and locked account to be one identical generic "invalid
credentials" failure. The code violates this: a locked credential yields
401 with the distinct body "Cuenta bloqueada. Contacte al administrador",
while the other two cases yield 401 "Credenciales inválidas", so an
unauthenticated caller can observe lockout state. -/
theorem login_locked_message_distinguishable :
    (login defaultConfig (fun _ _ => true) 0
        (some ⟨"u1", "ana", "ana@x.com", true⟩)
        (some ⟨"digest", 0, none, true⟩) "Correct1!").1
      = .err 401 "Cuenta bloqueada. Contacte al administrador" ∧
    (login defaultConfig (fun _ _ => true) 0 none none "Correct1!").1
      = .err 401 "Credenciales inválidas" ∧
    (login defaultConfig (fun _ _ => false) 0
        (some ⟨"u1", "ana", "ana@x.com", true⟩)
        (some ⟨"digest", 0, none, false⟩) "wrongpass").1
      = .err 401 "Credenciales inválidas" ∧
    ("Cuenta bloqueada. Contacte al administrador" : String)
      ≠ "Credenciales inválidas" :=
  ⟨rfl, rfl, rfl, by decide⟩

/-- C2 counterexample: on the equal pair (A,A) the code returns
(A, A, swapped) with low = high, so low < high does not always hold. -/
theorem normalize_user_pair_equal_pair_violates_lt :
    normalize_user_pair "x" "x" = ("x", "x", true) ∧
    ¬ (("x" : String) < "x") := by
  constructor
  · simp only [normalize_user_pair]
    rw [if_neg (lt_irrefl _)]
  · exact lt_irrefl _

/-- C2 amended: for all pairs of distinct id strings, normalize agrees in
both argument orders on the (low, high) components, and low < high holds
under the lexicographic string order; the equal pair, which the routes
reject before normalization, is the only exception. -/
theorem normalize_user_pair_comm_and_lt (a b : String) (hab : a ≠ b) :
    (normalize_user_pair a b).1 = (normalize_user_pair b a).1 ∧
    (normalize_user_pair a b).2.1 = (normalize_user_pair b a).2.1 ∧
    (normalize_user_pair a b).1 < (normalize_user_pair a b).2.1 := by
  rcases lt_or_gt_of_ne hab with h | h
  · simp only [normalize_user_pair]
    rw [if_pos h, if_neg (not_lt_of_gt h)]
    exact ⟨rfl, rfl, h⟩
  · simp only [normalize_user_pair]
    rw [if_neg (not_lt_of_gt h), if_pos h]
    exact ⟨rfl, rfl, h⟩

/-- C2 witness: the amended statement at the concrete pair ("a", "b"). -/
theorem normalize_user_pair_comm_and_lt_witness :
    (("a" : String) ≠ "b") ∧
    ((normalize_user_pair "a" "b").1 = (normalize_user_pair "b" "a").1 ∧
     (normalize_user_pair "a" "b").2.1 = (normalize_user_pair "b" "a").2.1 ∧
     (normalize_user_pair "a" "b").1 < (normalize_user_pair "a" "b").2.1) :=
  ⟨by decide, normalize_user_pair_comm_and_lt "a" "b" (by decide)⟩

/-- C3 counterexample: the type tag embedded by the issue operation is the
constant "access_token", not the literal "access" the claim names. -/
theorem make_access_token_type_tag_not_access :
    (make_access_token defaultConfig 0 "u1").payload.type = "access_token" ∧
    (make_access_token defaultConfig 0 "u1").payload.type ≠ "access" :=
  ⟨rfl, by decide⟩

/-- C3 amended: for every account id, the issued token embeds the subject
id, issued-at `now`, expiry `now` plus the configured TTL in minutes
(default 60), and the fixed type tag "access_token", and is signed HS256
with the server-held secret. -/
theorem make_access_token_claims (cfg : Config) (now : Nat) (uuid : String) :
    (make_access_token cfg now uuid).payload.user_uuid = uuid ∧
    (make_access_token cfg now uuid).payload.iat = now ∧
    (make_access_token cfg now uuid).payload.exp
      = now + cfg.JWT_EXPIRES_MIN * 60 ∧
    (make_access_token cfg now uuid).payload.type = "access_token" ∧
    (make_access_token cfg now uuid).key = cfg.JWT_SECRET ∧
    (make_access_token cfg now uuid).alg = "HS256" ∧
    defaultConfig.JWT_EXPIRES_MIN = 60 :=
  ⟨rfl, rfl, rfl, rfl, rfl, rfl, rfl⟩

/-- C4 counterexample: on a non-pending row with the actor equal to
requested_by, accept and reject fail with the wrong-state error 400, not
with the permission error 403, so "rejected with a permission error
regardless of the current status" is false. -/
theorem accept_self_nonpending_is_wrong_state_error :
    accept_friend_request 0 "a" (some ⟨"a", "b", "accepted", "a", 0, 0⟩)
      = { code := 400
          message :=
            "La relación está en estado \x27accepted\x27, no puede ser aceptada"
          row? := some ⟨"a", "b", "accepted", "a", 0, 0⟩ } ∧
    reject_friend_request 0 "a" (some ⟨"a", "b", "accepted", "a", 0, 0⟩)
      = { code := 400
          message :=
            "La relación está en estado \x27accepted\x27, no puede ser rechazada"
          row? := some ⟨"a", "b", "accepted", "a", 0, 0⟩ } ∧
    (400 : Nat) ≠ 403 :=
  ⟨by decide, by decide, by decide⟩

/-- C4 amended: for every row with acting party equal to requested_by,
accept and reject always fail and leave the row unchanged; on a pending
row the failure is the 403 permission error, on a non-pending row the 400
wrong-state check fires first. -/
theorem accept_reject_self_always_fails_row_unchanged (now : Nat)
    (me : String) (f : Friendship) (hreq : f.requested_by_id = me) :
    ((accept_friend_request now me (some f)).row? = some f ∧
     (reject_friend_request now me (some f)).row? = some f) ∧
    (f.status = "pending" →
      accept_friend_request now me (some f)
        = ⟨403, "No puedes aceptar tu propia solicitud de amistad", some f⟩ ∧
      reject_friend_request now me (some f)
        = ⟨403, "No puedes rechazar tu propia solicitud de amistad", some f⟩) ∧
    (f.status ≠ "pending" →
      (accept_friend_request now me (some f)).code = 400 ∧
      (reject_friend_request now me (some f)).code = 400) := by
  by_cases hp : f.status = "pending"
  · refine ⟨?_, fun _ => ?_, fun hc => absurd hp hc⟩
    · constructor
      · simp [accept_friend_request, hp, hreq]
      · simp [reject_friend_request, hp, hreq]
    · constructor
      · simp [accept_friend_request, hp, hreq]
      · simp [reject_friend_request, hp, hreq]
  · refine ⟨?_, fun hc => absurd hc hp, fun _ => ?_⟩
    · constructor
      · simp [accept_friend_request, hp]
      · simp [reject_friend_request, hp]
    · constructor
      · simp [accept_friend_request, hp]
      · simp [reject_friend_request, hp]

/-- C4 witness: the amended statement at a concrete pending row whose
requester acts on their own request. -/
theorem accept_reject_self_always_fails_row_unchanged_witness :
    ((⟨"a", "b", "pending", "a", 0, 0⟩ : Friendship).requested_by_id
      = "a") ∧
    (((accept_friend_request 1 "a"
          (some ⟨"a", "b", "pending", "a", 0, 0⟩)).row?
        = some ⟨"a", "b", "pending", "a", 0, 0⟩ ∧
      (reject_friend_request 1 "a"
          (some ⟨"a", "b", "pending", "a", 0, 0⟩)).row?
        = some ⟨"a", "b", "pending", "a", 0, 0⟩) ∧
     ((⟨"a", "b", "pending", "a", 0, 0⟩ : Friendship).status = "pending" →
       accept_friend_request 1 "a" (some ⟨"a", "b", "pending", "a", 0, 0⟩)
         = ⟨403, "No puedes aceptar tu propia solicitud de amistad",
             some ⟨"a", "b", "pending", "a", 0, 0⟩⟩ ∧
       reject_friend_request 1 "a" (some ⟨"a", "b", "pending", "a", 0, 0⟩)
         = ⟨403, "No puedes rechazar tu propia solicitud de amistad",
             some ⟨"a", "b", "pending", "a", 0, 0⟩⟩) ∧
     ((⟨"a", "b", "pending", "a", 0, 0⟩ : Friendship).status ≠ "pending" →
       (accept_friend_request 1 "a"
           (some ⟨"a", "b", "pending", "a", 0, 0⟩)).code = 400 ∧
       (reject_friend_request 1 "a"
           (some ⟨"a", "b", "pending", "a", 0, 0⟩)).code = 400)) :=
  ⟨rfl, accept_reject_self_always_fails_row_unchanged 1 "a"
    ⟨"a", "b", "pending", "a", 0, 0⟩ rfl⟩

/-- C5: unfriend on a row in any non-accepted status performs no
transition, returns the row exactly as it was (status and requested_by
untouched) and reports the current status in the response body. -/
theorem unfriend_nonaccepted_reports_state_unchanged (now : Nat)
    (me : String) (f : Friendship) (hs : f.status ≠ "accepted") :
    unfriend_user now me (some f)
      = { code := 200
          message :=
            "La relación ya está en estado \x27" ++ f.status ++ "\x27"
          row? := some f } := by
  simp [unfriend_user, hs]

/-- C5 witness: unfriend on a concrete pending row. -/
theorem unfriend_nonaccepted_reports_state_unchanged_witness :
    ((⟨"a", "b", "pending", "a", 3, 4⟩ : Friendship).status ≠ "accepted") ∧
    unfriend_user 9 "a" (some ⟨"a", "b", "pending", "a", 3, 4⟩)
      = { code := 200
          message :=
            "La relación ya está en estado \x27" ++ "pending" ++ "\x27"
          row? := some ⟨"a", "b", "pending", "a", 3, 4⟩ } :=
  ⟨by decide,
   unfriend_nonaccepted_reports_state_unchanged 9 "a"
     ⟨"a", "b", "pending", "a", 3, 4⟩ (by decide)⟩

/-- C6: from an unlocked credential with a zero attempt counter, five
consecutive failed logins leave the counter at 5 and set the lockout
flag, and a sixth attempt with the correct password (one the verifier
accepts) still fails authentication. -/
theorem five_failed_logins_lock_and_sixth_correct_fails
    (cfg : Config) (verify : String → String → Bool) (now : Nat) (u : User)
    (hu : u.is_active = true) (digest wrongpw correctpw : String)
    (t0 : Option Nat) (hw : verify wrongpw digest = false)
    (hc : verify correctpw digest = true) :
    failN cfg verify now u wrongpw 5 (some ⟨digest, 0, t0, false⟩)
      = some ⟨digest, 5, some now, true⟩ ∧
    (⟨digest, 5, some now, true⟩ : AuthLocal).is_locked = true ∧
    (login cfg verify now (some u) (some ⟨digest, 5, some now, true⟩)
        correctpw).1
      = .err 401 "Cuenta bloqueada. Contacte al administrador" := by
  refine ⟨by simp [failN, login, hu, hw], rfl, by simp [login, hu]⟩

/-- C6 witness: a concrete account whose verifier is string equality with
the stored digest; five wrong passwords lock it and the right password is
then refused. -/
theorem five_failed_logins_lock_and_sixth_correct_fails_witness :
    ((⟨"u1", "ana", "ana@x.com", true⟩ : User).is_active = true) ∧
    ((fun p d => p == d) "badpw" "Secret1!" = false) ∧
    ((fun p d => p == d) "Secret1!" "Secret1!" = true) ∧
    (failN defaultConfig (fun p d => p == d) 7
        ⟨"u1", "ana", "ana@x.com", true⟩ "badpw" 5
        (some ⟨"Secret1!", 0, none, false⟩)
      = some ⟨"Secret1!", 5, some 7, true⟩ ∧
     (⟨"Secret1!", 5, some 7, true⟩ : AuthLocal).is_locked = true ∧
     (login defaultConfig (fun p d => p == d) 7
         (some ⟨"u1", "ana", "ana@x.com", true⟩)
         (some ⟨"Secret1!", 5, some 7, true⟩) "Secret1!").1
       = .err 401 "Cuenta bloqueada. Contacte al administrador") :=
  ⟨rfl, by decide, by decide,
   five_failed_logins_lock_and_sixth_correct_fails defaultConfig
     (fun p d => p == d) 7 ⟨"u1", "ana", "ana@x.com", true⟩ rfl
     "Secret1!" "badpw" "Secret1!" none (by decide) (by decide)⟩

/-- C7: a send_request against an existing rejected or removed row by a
member of the pair flips the row to pending with requested_by reset to the
new requester, inserting no new row. -/
theorem send_request_reopens_rejected_or_removed (now : Nat)
    (me to_user : String) (e : Friendship)
    (_hmem : me = e.user_low_id ∨ me = e.user_high_id)
    (hst : e.status = "rejected" ∨ e.status = "removed")
    (hto : to_user ≠ "") (hne : to_user ≠ me) :
    send_friend_request now me to_user true (some e)
      = { code := 200
          message := "Solicitud de amistad enviada"
          row? := some { e with
                           status := "pending"
                           requested_by_id := me
                           updated_at := now }
          insertedNew := false } := by
  rcases hst with h | h <;> simp [send_friend_request, h, hto, hne]

/-- C7 witness: a concrete rejected row re-requested by the original
target of the request. -/
theorem send_request_reopens_rejected_or_removed_witness :
    (("a" : String) = (⟨"a", "b", "rejected", "b", 1, 2⟩ : Friendship).user_low_id ∨
     ("a" : String) = (⟨"a", "b", "rejected", "b", 1, 2⟩ : Friendship).user_high_id) ∧
    ((⟨"a", "b", "rejected", "b", 1, 2⟩ : Friendship).status = "rejected" ∨
     (⟨"a", "b", "rejected", "b", 1, 2⟩ : Friendship).status = "removed") ∧
    (("b" : String) ≠ "") ∧ (("b" : String) ≠ "a") ∧
    send_friend_request 9 "a" "b" true (some ⟨"a", "b", "rejected", "b", 1, 2⟩)
      = { code := 200
          message := "Solicitud de amistad enviada"
          row? := some ⟨"a", "b", "pending", "a", 1, 9⟩
          insertedNew := false } :=
  ⟨Or.inl rfl, Or.inl rfl, by decide, by decide,
   send_request_reopens_rejected_or_removed 9 "a" "b"
     ⟨"a", "b", "rejected", "b", 1, 2⟩ (Or.inl rfl) (Or.inl rfl)
     (by decide) (by decide)⟩

/-- C8: a repeated send_request on a pending row by the original requester
is an idempotent no-op: no insert, the row is returned unchanged. -/
theorem send_request_pending_same_requester_idempotent (now : Nat)
    (me to_user : String) (e : Friendship) (hst : e.status = "pending")
    (hreq : e.requested_by_id = me) (hto : to_user ≠ "")
    (hne : to_user ≠ me) :
    send_friend_request now me to_user true (some e)
      = { code := 200
          message := "Solicitud de amistad ya existe"
          row? := some e
          insertedNew := false } := by
  simp [send_friend_request, hst, hreq, hto, hne]

/-- C8 witness: a concrete pending row re-sent by its requester. -/
theorem send_request_pending_same_requester_idempotent_witness :
    ((⟨"a", "b", "pending", "a", 1, 2⟩ : Friendship).status = "pending") ∧
    ((⟨"a", "b", "pending", "a", 1, 2⟩ : Friendship).requested_by_id = "a") ∧
    (("b" : String) ≠ "") ∧ (("b" : String) ≠ "a") ∧
    send_friend_request 9 "a" "b" true (some ⟨"a", "b", "pending", "a", 1, 2⟩)
      = { code := 200
          message := "Solicitud de amistad ya existe"
          row? := some ⟨"a", "b", "pending", "a", 1, 2⟩
          insertedNew := false } :=
  ⟨rfl, rfl, by decide, by decide,
   send_request_pending_same_requester_idempotent 9 "a" "b"
     ⟨"a", "b", "pending", "a", 1, 2⟩ rfl rfl (by decide) (by decide)⟩

/-- C9: a Bearer token that decodes successfully (signature, expiry, type
and subject all fine) but whose subject matches no account makes the gate
fail with the 401 "Usuario no encontrado" error; and on any gate failure
the decorated route returns the gate error without the wrapped handler
contributing anything to the result. -/
theorem auth_gate_stale_token_and_no_invocation_on_failure
    (cfg : Config) (now : Nat) (parse : String → Option SignedToken)
    (findUser : String → Option User) :
    (∀ (h token : String) (p : TokenPayload),
      splitBearer h = some ("Bearer", token) →
      decode_access_token cfg now parse token = .ok p →
      findUser p.user_uuid = none →
      auth_gate cfg now parse findUser (some h)
        = .error (401, "Usuario no encontrado")) ∧
    (∀ (α : Type) (header : Option String) (e : Nat × String)
        (f : User → α),
      auth_gate cfg now parse findUser header = .error e →
      auth_required cfg now parse findUser header f = .error e) := by
  constructor
  · intro h token p hs hd hu
    simp [auth_gate, hs, hd, hu,
      show lowerAscii "Bearer" = "bearer" from by decide]
  · intro α header e f hg
    simp [auth_required, hg]

/-- C9 witness: a parser that accepts a well-signed unexpired token for a
deleted account, and a malformed header showing the handler is bypassed on
failure. -/
theorem auth_gate_stale_token_and_no_invocation_on_failure_witness :
    (auth_gate defaultConfig 0
        (fun _ => some ⟨⟨"u1", 100, 0, "access_token"⟩,
          "nexo-jwt-default-secret", "HS256"⟩)
        (fun _ => none) (some "Bearer t")
      = .error (401, "Usuario no encontrado")) ∧
    (auth_required defaultConfig 0
        (fun _ => some ⟨⟨"u1", 100, 0, "access_token"⟩,
          "nexo-jwt-default-secret", "HS256"⟩)
        (fun _ => none) (some "Bearer t") (fun _ => (0 : Nat))
      = .error (401, "Usuario no encontrado")) := by
  have hmain := auth_gate_stale_token_and_no_invocation_on_failure
    defaultConfig 0
    (fun _ => some ⟨⟨"u1", 100, 0, "access_token"⟩,
      "nexo-jwt-default-secret", "HS256"⟩)
    (fun _ => none)
  have h1 := hmain.1 "Bearer t" "t" ⟨"u1", 100, 0, "access_token"⟩
    (by decide) rfl rfl
  exact ⟨h1, hmain.2 Nat (some "Bearer t")
    (401, "Usuario no encontrado") (fun _ => 0) h1⟩

/-- C10: on a locked credential of an active account, login returns the
lockout error with the credential row exactly as it was (counter,
timestamp and flag untouched), and the result is identical for every
verifier and every password, so password verification is never
consulted. -/
theorem login_locked_credential_unchanged_no_verify
    (cfg : Config) (verify verify2 : String → String → Bool) (now : Nat)
    (u : User) (hu : u.is_active = true) (a : AuthLocal)
    (hl : a.is_locked = true) (pw pw2 : String) :
    login cfg verify now (some u) (some a) pw
      = (.err 401 "Cuenta bloqueada. Contacte al administrador", some a) ∧
    login cfg verify now (some u) (some a) pw
      = login cfg verify2 now (some u) (some a) pw2 := by
  simp [login, hu, hl]

/-- C10 witness: a concrete locked credential with a nonzero counter and
timestamp, probed with two different verifiers and passwords. -/
theorem login_locked_credential_unchanged_no_verify_witness :
    ((⟨"u1", "ana", "ana@x.com", true⟩ : User).is_active = true) ∧
    ((⟨"digest", 3, some 5, true⟩ : AuthLocal).is_locked = true) ∧
    (login defaultConfig (fun _ _ => true) 8
        (some ⟨"u1", "ana", "ana@x.com", true⟩)
        (some ⟨"digest", 3, some 5, true⟩) "pw"
      = (.err 401 "Cuenta bloqueada. Contacte al administrador",
         some ⟨"digest", 3, some 5, true⟩) ∧
     login defaultConfig (fun _ _ => true) 8
        (some ⟨"u1", "ana", "ana@x.com", true⟩)
        (some ⟨"digest", 3, some 5, true⟩) "pw"
      = login defaultConfig (fun _ _ => false) 8
          (some ⟨"u1", "ana", "ana@x.com", true⟩)
          (some ⟨"digest", 3, some 5, true⟩) "other") :=
  ⟨rfl, rfl,
   login_locked_credential_unchanged_no_verify defaultConfig
     (fun _ _ => true) (fun _ _ => false) 8
     ⟨"u1", "ana", "ana@x.com", true⟩ rfl ⟨"digest", 3, some 5, true⟩ rfl
     "pw" "other"⟩

end Nexo
